import Mathlib

set_option autoImplicit false

/-!
# Verification of the glint.ai message-routing and conversation-persistence core

This file gives a shallow embedding, in Lean 4, of the core of the glint.ai
browser chat client (source file `script.js`): the per-category credential
lookup (`getApiKey`), the provider dispatch (`makeApiCall` and the four
`call*Api` functions), the keyword classifier (`detectApiType`), chat
registry and history management (`startNewChat`, `loadChat`,
`saveCurrentChat`, `addMessage`), and the media store
(`savePhotoToStorage`, `saveVoiceToStorage`, `getChatMedia`).

Modelling conventions:
* `localStorage` is a record of typed fields. A JSON-valued key is modelled
  by `StoredJson`: the key can be absent, hold malformed JSON
  (`JSON.parse` throws), or hold a well-formed value.
* JS objects used as dictionaries are association lists
  (`lookupAssoc` / `setAssoc`), with the JS semantics that updating an
  existing key keeps its position and a new key is appended.
* The DOM `#messages` element is modelled as an optional list of bubbles,
  newest first (the code prepends because of the column-reverse layout).
* Millisecond wall-clock time (`Date.now()`) is an explicit `Nat` argument.
* The network is an oracle `NetRequest → NetResponse` passed to the
  dispatch functions; each embedded function returns the number of
  outbound `fetch` calls it performed alongside its result.
* A thrown JS exception is an `Except`-style error value; functions whose
  source wraps everything in `try`/`catch` absorb it exactly where the
  source does.
-/

/-- A JSON-valued `localStorage` entry: absent, malformed (parsing throws),
or a parsed value. -/
inductive StoredJson (α : Type) where
  | absent : StoredJson α
  | malformed : StoredJson α
  | wellFormed (val : α) : StoredJson α
deriving DecidableEq, Repr

/-- The single modelled JS exception kind: a `JSON.parse` failure. -/
inductive JsError where
  | jsonParse : JsError
deriving DecidableEq, Repr

/-- JS `JSON.parse(localStorage.getItem(k)) || d`: absent keys give the
default (parsing the null item yields a falsy value), malformed JSON
throws, and a well-formed value is returned as is. -/
def parseOr {α : Type} (s : StoredJson α) (d : α) : Except JsError α :=
  match s with
  | .absent => .ok d
  | .malformed => .error .jsonParse
  | .wellFormed v => .ok v

/-- JS `x || d` for string-valued items: `null` and the empty string are
falsy, so both fall back to the default. -/
def jsGetOr (o : Option String) (d : String) : String :=
  match o with
  | none => d
  | some s => if s = "" then d else s

/-- Lookup in a JS object modelled as an association list (a JS object
holds each key once, so the first match is the only one). -/
def lookupAssoc {α : Type} : List (String × α) → String → Option α
  | [], _ => none
  | p :: l, k => if p.1 = k then some p.2 else lookupAssoc l k

/-- Update in a JS object modelled as an association list: an existing key
is updated in place, a new key is appended (JS property insertion
order). -/
def setAssoc {α : Type} : List (String × α) → String → α →
    List (String × α)
  | [], k, v => [(k, v)]
  | p :: l, k, v =>
    if p.1 = k then (k, v) :: l else p :: setAssoc l k v

/-- One entry of the persisted chat registry `glintChatList`
(`{id, name, date}` in `startNewChat`). The `date` field is the creation
timestamp in milliseconds (the source stores its ISO rendering). -/
structure ChatMeta where
  id : String
  name : String
  date : Nat
deriving DecidableEq, Repr

/-- One persisted media asset (`photoData` / `voiceData` in
`savePhotoToStorage` / `saveVoiceToStorage`). `mtype` is the source field
named `type`; `duration` is present only on voice assets. -/
structure MediaAsset where
  id : String
  chatId : String
  data : String
  fileName : String
  mtype : String
  timestamp : Nat
  duration : Option Nat
deriving DecidableEq, Repr

/-- One rendered message bubble in the `#messages` element: its CSS class
list and its text content. -/
structure Bubble where
  cssClass : String
  content : String
deriving DecidableEq, Repr

/-- The `localStorage` keys the core reads and writes. The four API-key
fields model `glint_text_api` … `glint_coding_api` (`none` = key removed),
`selectedLanguage` the language preference, `glintChatList` the chat
registry, `glintMediaStorage` the per-chat media index, and
`messagesHtml` the family of `messages_html_<chatId>` keys (the rendered
history of a chat, here kept as the bubble list the HTML renders). -/
structure LocalStorage where
  textApiKey : Option String
  imageApiKey : Option String
  voiceApiKey : Option String
  codingApiKey : Option String
  selectedLanguage : Option String
  glintChatList : StoredJson (List ChatMeta)
  glintMediaStorage : StoredJson (List (String × List MediaAsset))
  messagesHtml : List (String × List Bubble)
deriving DecidableEq, Repr

/-- An empty browser storage: every key absent. -/
def LocalStorage.empty : LocalStorage :=
  { textApiKey := none
    imageApiKey := none
    voiceApiKey := none
    codingApiKey := none
    selectedLanguage := none
    glintChatList := .absent
    glintMediaStorage := .absent
    messagesHtml := [] }

/-- The in-page state the core manipulates: the storage, the `#messages`
DOM element (`none` when the element is missing from the page), the global
`currentChatId`, and the static welcome-message markup the page ships
(used by `loadChat` as the fallback content). -/
structure AppState where
  store : LocalStorage
  messagesEl : Option (List Bubble)
  currentChatId : Option String
  welcome : List Bubble
deriving DecidableEq, Repr

/-- Embeds `getApiKey(type)`: a `switch` on the request type whose
`default` branch also reads the text key, with `|| ''` turning an absent
item into the empty string. -/
def getApiKey (store : LocalStorage) (ty : String) : String :=
  if ty = "text" then (store.textApiKey.getD "")
  else if ty = "image" then (store.imageApiKey.getD "")
  else if ty = "voice" then (store.voiceApiKey.getD "")
  else if ty = "coding" then (store.codingApiKey.getD "")
  else (store.textApiKey.getD "")

/-- An outbound `fetch` request, abstracted to its target URL, the
credential it carries and the user content it sends. -/
structure NetRequest where
  url : String
  apiKey : String
  content : String
deriving DecidableEq, Repr

/-- An abstract provider response: HTTP success flag and status, the
extracted reply payload on success, and the provider error text used to
build failure messages. -/
structure NetResponse where
  ok : Bool
  status : Nat
  payload : String
  errorInfo : String
deriving DecidableEq, Repr

/-- A network oracle: what each outbound request would answer. -/
def Network : Type := NetRequest → NetResponse

/-- Embeds `callTextApi`: one `fetch` to the DeepSeek chat endpoint;
a non-ok response throws the composed error message, a success returns the
trimmed reply content. The second component counts outbound fetches. -/
def callTextApi (net : Network) (message apiKey : String) :
    Except String String × Nat :=
  let resp := net { url := "https://api.deepseek.com/v1/chat/completions"
                    apiKey := apiKey, content := message }
  if resp.ok then
    (.ok resp.payload.trim, 1)
  else
    (.error ("DeepSeek Text API Error: " ++ toString resp.status ++ " - "
      ++ resp.errorInfo), 1)

/-- Embeds `callImageApi`: one `fetch` to the DeepAI text2img endpoint;
a non-ok response throws with the first 100 characters of the body, a
success returns the output URL. -/
def callImageApi (net : Network) (prompt apiKey : String) :
    Except String String × Nat :=
  let resp := net { url := "https://api.deepai.org/api/text2img"
                    apiKey := apiKey, content := prompt }
  if resp.ok then
    (.ok resp.payload, 1)
  else
    (.error ("DeepAI Image API Error: " ++ toString resp.status ++ " - "
      ++ (resp.errorInfo.take 100) ++ "..."), 1)

/-- The Roman-Urdu transport-unsupported message thrown by
`callVoiceApi`. -/
def voiceMsgRomanUrdu : String :=
  "❌ Voice API (Play.ht/EdenAI) browser se direct kaam nahi karta. Iske liye aapko backend proxy ya special SDK ki zaroorat padegi. Jab tak yeh fix nahi hota, Voice feature kaam nahi karega."

/-- The English transport-unsupported message thrown by `callVoiceApi`. -/
def voiceMsgEnglish : String :=
  "❌ Voice API (Play.ht/EdenAI) cannot be called directly from the browser. A backend proxy or specialized SDK is required. The Voice feature will not work until then."

/-- The message `callVoiceApi` selects from the persisted language
preference (`localStorage.getItem('selectedLanguage') || 'roman-urdu'`). -/
def voiceTransportMessage (store : LocalStorage) : String :=
  if jsGetOr store.selectedLanguage "roman-urdu" = "roman-urdu" then
    voiceMsgRomanUrdu
  else
    voiceMsgEnglish

/-- Embeds `callVoiceApi`: performs no `fetch` at all and unconditionally
throws the localized transport-unsupported message. -/
def callVoiceApi (store : LocalStorage) : Except String String × Nat :=
  (.error (voiceTransportMessage store), 0)

/-- Embeds `callCodingApi`: one `fetch` to the DeepSeek chat endpoint with
the coder model; failure and success shapes as in `callTextApi`. -/
def callCodingApi (net : Network) (message apiKey : String) :
    Except String String × Nat :=
  let resp := net { url := "https://api.deepseek.com/v1/chat/completions"
                    apiKey := apiKey, content := message }
  if resp.ok then
    (.ok resp.payload.trim, 1)
  else
    (.error ("DeepSeek Coding API Error: " ++ toString resp.status ++ " - "
      ++ resp.errorInfo), 1)

/-- JS `String.prototype.toUpperCase` restricted to the ASCII range the
request types use, as a structurally recursive map over the characters. -/
def jsToUpper (s : String) : String :=
  ⟨s.data.map Char.toUpper⟩

/-- JS `String.prototype.toLowerCase` restricted to the ASCII range the
classifier keywords use, as a structurally recursive map over the
characters. -/
def jsToLower (s : String) : String :=
  ⟨s.data.map Char.toLower⟩

/-- The configuration-error message `makeApiCall` throws when the category
has no credential. -/
def configErrMsg (ty : String) : String :=
  jsToUpper ty ++ " API key not configured. Please check settings."

/-- Embeds `makeApiCall(type, content)`: looks up the credential with
`getApiKey`, throws the configuration error if it is empty (before any
network activity), and otherwise dispatches on the type. The `try`/`catch`
in the source only logs and rethrows, so it is the identity here. -/
def makeApiCall (net : Network) (store : LocalStorage)
    (ty content : String) : Except String String × Nat :=
  let apiKey := getApiKey store ty
  if apiKey = "" then
    (.error (configErrMsg ty), 0)
  else if ty = "text" then callTextApi net content apiKey
  else if ty = "image" then callImageApi net content apiKey
  else if ty = "voice" then callVoiceApi store
  else if ty = "coding" then callCodingApi net content apiKey
  else (.error "Unknown API type", 0)

/-- The image keyword set of `detectApiType`. -/
def imageKeywords : List String :=
  ["image", "photo", "picture", "generate image", "create image", "draw",
   "visual", "painting", "artwork"]

/-- The voice keyword set of `detectApiType`. -/
def voiceKeywords : List String :=
  ["voice", "speech", "audio", "record", "listen", "speak", "microphone",
   "sound", "text to speech", "tts"]

/-- The coding keyword set of `detectApiType`. -/
def codingKeywords : List String :=
  ["code", "function", "program", "script", "algorithm", "debug", "error",
   "fix", "build", "create", "develop", "write", "make", "javascript",
   "python", "html", "css", "react", "node", "api", "loop", "array",
   "object", "class", "component", "database", "variable", "syntax"]

/-- Tests whether the first list is an initial segment of the second. -/
def leadsWith : List Char → List Char → Bool
  | [], _ => true
  | _ :: _, [] => false
  | n :: ns, h :: hs => n == h && leadsWith ns hs

/-- Tests whether the first list occurs contiguously inside the second. -/
def occursIn (needle : List Char) : List Char → Bool
  | [] => needle.isEmpty
  | h :: hs => leadsWith needle (h :: hs) || occursIn needle hs

/-- JS `haystack.includes(needle)`: substring containment. -/
def strIncludes (hay needle : String) : Bool :=
  occursIn needle.data hay.data

/-- JS `keywords.some(keyword => lowerMsg.includes(keyword))` applied to
the lowercased message. -/
def hasKeyword (keywords : List String) (message : String) : Bool :=
  keywords.any (fun k => strIncludes (jsToLower message) k)

/-- Embeds `detectApiType(message)`: lowercase the message, then test the
image, voice and coding keyword sets in that order, defaulting to text. -/
def detectApiType (message : String) : String :=
  if hasKeyword imageKeywords message then "image"
  else if hasKeyword voiceKeywords message then "voice"
  else if hasKeyword codingKeywords message then "coding"
  else "text"

/-- The id `startNewChat` generates: the literal prefix `chat-` followed
by the decimal rendering of the millisecond timestamp (`Date.now()`). -/
def newChatId (now : Nat) : String :=
  "chat-" ++ Nat.repr now

/-- The display name `startNewChat` builds for a fresh chat. The source
renders the timestamp with `toLocaleString`; the exact locale rendering is
irrelevant to every claim, so the rendering function is the decimal one. -/
def chatDisplayName (now : Nat) : String :=
  "Nai Chat " ++ Nat.repr now

/-- Embeds `getChatMedia()`: with no current chat the result is empty;
otherwise the media index is parsed (the surrounding `try`/`catch` turns a
parse failure into an empty result) and the chat entry is looked up. -/
def getChatMedia (st : AppState) : List MediaAsset :=
  match st.currentChatId with
  | none => []
  | some cid =>
    match parseOr st.store.glintMediaStorage [] with
    | .error _ => []
    | .ok media => (lookupAssoc media cid).getD []

/-- Embeds `loadChat(chatId)`: with no `#messages` element the function
returns early; otherwise it sets the global chat id, restores the chat
content from `messages_html_<chatId>` (an empty or absent item falls back
to the welcome markup), and then parses the registry for the header title
— a step with no `try`/`catch`, so a malformed registry escapes to the
caller after the content has already been replaced. The unused
`getChatMedia()` call in the restore branch has its own catch and no state
effect, so it is omitted. -/
def loadChat (st : AppState) (chatId : String) : AppState × Option JsError :=
  match st.messagesEl with
  | none => (st, none)
  | some _ =>
    let msgs :=
      match lookupAssoc st.store.messagesHtml chatId with
      | some h => if h.isEmpty then st.welcome else h
      | none => st.welcome
    let st2 := { st with currentChatId := some chatId, messagesEl := some msgs }
    match parseOr st2.store.glintChatList [] with
    | .error e => (st2, some e)
    | .ok _ => (st2, none)

/-- Embeds `startNewChat(false)` (the non-reloading path used by message
recovery and page initialization): generates the timestamp id, parses the
registry — with no `try`/`catch`, so a malformed registry escapes before
anything is written — prepends the new chat, persists the registry, sets
the global chat id and loads the new chat. -/
def startNewChat (st : AppState) (now : Nat) : AppState × Option JsError :=
  let newId := newChatId now
  match parseOr st.store.glintChatList [] with
  | .error e => (st, some e)
  | .ok chatList =>
    let chatList' :=
      ({ id := newId, name := chatDisplayName now, date := now } : ChatMeta)
        :: chatList
    let store' := { st.store with glintChatList := .wellFormed chatList' }
    loadChat { st with store := store', currentChatId := some newId } newId

/-- Embeds `saveCurrentChat()`: a no-op without a current chat id or a
`#messages` element, otherwise it persists the rendered content under
`messages_html_<currentChatId>`. -/
def saveCurrentChat (st : AppState) : AppState :=
  match st.currentChatId with
  | none => st
  | some cid =>
    match st.messagesEl with
    | none => st
    | some msgs =>
      { st with store :=
          { st.store with messagesHtml := setAssoc st.store.messagesHtml cid msgs } }

/-- Prepends a bubble to the `#messages` element (the newest message sits
at the head because of the column-reverse layout). -/
def prependBubble (st : AppState) (b : Bubble) : AppState :=
  match st.messagesEl with
  | none => st
  | some msgs => { st with messagesEl := some (b :: msgs) }

/-- The media list a chat id owns in the persisted media index, empty when
the index is absent or malformed or the chat has no entry. -/
def mediaOf (st : AppState) (cid : String) : List MediaAsset :=
  match st.store.glintMediaStorage with
  | .wellFormed media => (lookupAssoc media cid).getD []
  | _ => []

/-- Embeds `savePhotoToStorage(imageData, fileName)`: without a current
chat it returns `null`; the media index is parsed inside the function-wide
`try`/`catch`, so a malformed index yields `null` with nothing written;
otherwise the asset is appended to the chat entry and the index persisted,
returning the generated photo id. -/
def savePhotoToStorage (st : AppState) (now : Nat)
    (imageData fileName : String) : AppState × Option String :=
  match st.currentChatId with
  | none => (st, none)
  | some cid =>
    match parseOr st.store.glintMediaStorage [] with
    | .error _ => (st, none)
    | .ok media =>
      let photoId := "photo-" ++ Nat.repr now
      let asset : MediaAsset :=
        { id := photoId, chatId := cid, data := imageData
          fileName := fileName, mtype := "photo", timestamp := now
          duration := none }
      let entry := (lookupAssoc media cid).getD []
      let media' := setAssoc media cid (entry ++ [asset])
      ({ st with store :=
          { st.store with glintMediaStorage := .wellFormed media' } },
       some photoId)

/-- Embeds the `reader.onload` body of `saveVoiceToStorage(audioBlob,
fileName)` once the blob has decoded to `audioData`: the shape is that of
`savePhotoToStorage` with the voice prefix and a zero duration. A missing
chat id rejects the promise before the reader starts; a parse failure in
the callback escapes uncaught and nothing is written — both are `none`
here. -/
def saveVoiceToStorage (st : AppState) (now : Nat)
    (audioData fileName : String) : AppState × Option String :=
  match st.currentChatId with
  | none => (st, none)
  | some cid =>
    match parseOr st.store.glintMediaStorage [] with
    | .error _ => (st, none)
    | .ok media =>
      let voiceId := "voice-" ++ Nat.repr now
      let asset : MediaAsset :=
        { id := voiceId, chatId := cid, data := audioData
          fileName := fileName, mtype := "voice", timestamp := now
          duration := some 0 }
      let entry := (lookupAssoc media cid).getD []
      let media' := setAssoc media cid (entry ++ [asset])
      ({ st with store :=
          { st.store with glintMediaStorage := .wellFormed media' } },
       some voiceId)

/-- The bubble `addMessage` builds for the user message. -/
def userBubble (text : String) : Bubble :=
  { cssClass := "bubble user", content := text }

/-- The loading bubble `addMessage` prepends while the reply resolves. -/
def loadingBubble (apiType : String) : Bubble :=
  { cssClass := "bubble bot loading-message"
    content := jsToUpper apiType ++ " API se jawab aa raha hai..." }

/-- Embeds the synchronous part of `addMessage(text, 'user')`, fuelled to
bound the self-retry. When the `#messages` element and a current chat id
are both present, the user bubble and the loading bubble are prepended
(the asynchronous reply resolution is outside this step) and the Boolean
result records that the message was accepted. Otherwise the code runs
`startNewChat()` and schedules one retry of itself; an exception from
`startNewChat` is swallowed by the function-wide `try`/`catch` (the retry
is never scheduled and the message is dropped). The source retries through
`setTimeout` without a depth bound; whenever the `#messages` element
exists the recursion depth is at most two, which fuel 2 captures
exactly. -/
def addMessageUserAux : Nat → AppState → Nat → String →
    AppState × Bool
  | 0, st, _, _ => (st, false)
  | fuel + 1, st, now, text =>
    match st.messagesEl, st.currentChatId with
    | some msgs, some _ =>
      let newMsgs := loadingBubble (detectApiType text) :: userBubble text :: msgs
      ({ st with messagesEl := some newMsgs }, true)
    | _, _ =>
      match startNewChat st now with
      | (st', some _) => (st', false)
      | (st', none) => addMessageUserAux fuel st' now text

/-- The synchronous part of `addMessage(text, 'user')` with the retry
bound of the source execution (one recovery attempt). -/
def addMessageUser (st : AppState) (now : Nat) (text : String) :
    AppState × Bool :=
  addMessageUserAux 2 st now text

/-- The id column of the persisted chat registry, empty when the registry
is absent or malformed. -/
def registryIds (st : AppState) : List String :=
  match st.store.glintChatList with
  | .wellFormed l => l.map ChatMeta.id
  | _ => []

/-- A concrete network oracle for closed evaluations: every request would
succeed with an empty payload. The dispatch properties proved below hold
for every oracle; this one only instantiates them. -/
def demoNet : Network :=
  fun _ => { ok := true, status := 200, payload := "", errorInfo := "" }

/-- A fresh page state: empty storage, an empty `#messages` element, no
active chat, no welcome markup. -/
def initialAppState : AppState :=
  { store := LocalStorage.empty
    messagesEl := some []
    currentChatId := none
    welcome := [] }

/-- A page state with an active chat `chat-1`, an empty message view and
empty storage. -/
def c4State : AppState :=
  { store := LocalStorage.empty
    messagesEl := some []
    currentChatId := some "chat-1"
    welcome := [] }

/-- A page state whose persisted chat registry and media index both hold
malformed JSON, with an active chat and a present message view. -/
def corruptState : AppState :=
  { store := { LocalStorage.empty with
      glintChatList := .malformed
      glintMediaStorage := .malformed }
    messagesEl := some []
    currentChatId := some "chat-1"
    welcome := [] }

/-- A page state with no active chat, a present (empty) message view and
a malformed persisted chat registry. -/
def noChatCorruptState : AppState :=
  { store := { LocalStorage.empty with glintChatList := .malformed }
    messagesEl := some []
    currentChatId := none
    welcome := [] }

/-- The registry after one `startNewChat` at millisecond 5. -/
def c3StateOne : AppState := (startNewChat initialAppState 5).1

/-- The registry after a second `startNewChat` in the same millisecond. -/
def c3StateTwo : AppState := (startNewChat c3StateOne 5).1

/-- Reads one decimal digit character back to its value. -/
def decodeDigitChar (c : Char) : Nat := c.toNat - 48

/-- Reads a decimal digit string back to the number it denotes. -/
def decodeDigits (l : List Char) : Nat :=
  l.foldl (fun a c => a * 10 + decodeDigitChar c) 0

/-! ### Injectivity of the decimal timestamp rendering

The id scheme `chat-<Date.now()>` is injective in the timestamp: reading
the decimal digits back recovers the number. -/

theorem decodeDigitChar_digitChar {n : Nat} (h : n < 10) :
    decodeDigitChar (Nat.digitChar n) = n := by
  interval_cases n <;> decide

theorem decodeDigits_append_one (l : List Char) (c : Char) :
    decodeDigits (l ++ [c]) = decodeDigits l * 10 + decodeDigitChar c := by
  simp [decodeDigits, List.foldl_append]

theorem toDigitsCore_shift (f n : Nat) :
    ∀ ds : List Char,
      Nat.toDigitsCore 10 f n ds = Nat.toDigitsCore 10 f n [] ++ ds := by
  induction f generalizing n with
  | zero => intro ds; simp [Nat.toDigitsCore]
  | succ f ih =>
    intro ds
    simp only [Nat.toDigitsCore]
    by_cases h : n / 10 = 0
    · simp [h]
    · simp only [h, if_false]
      rw [ih (n / 10) (Nat.digitChar (n % 10) :: ds),
        ih (n / 10) [Nat.digitChar (n % 10)], List.append_assoc]
      rfl

theorem toDigitsCore_fuel (n : Nat) : ∀ f g : Nat, n < f → n < g →
    ∀ ds, Nat.toDigitsCore 10 f n ds = Nat.toDigitsCore 10 g n ds := by
  induction n using Nat.strong_induction_on with
  | _ n ih =>
    intro f g hf hg ds
    match f, g, hf, hg with
    | f + 1, g + 1, _, _ =>
      simp only [Nat.toDigitsCore]
      by_cases h : n / 10 = 0
      · simp [h]
      · have hn : 0 < n := by
          rcases Nat.eq_zero_or_pos n with h0 | h0
          · subst h0; simp at h
          · exact h0
        have hdiv : n / 10 < n := Nat.div_lt_self hn (by decide)
        simp only [h, if_false]
        exact ih (n / 10) hdiv f g (by omega) (by omega) _

theorem decodeDigits_toDigits (n : Nat) :
    decodeDigits (Nat.toDigits 10 n) = n := by
  induction n using Nat.strong_induction_on with
  | _ n ih =>
    have hmod : n % 10 < 10 := Nat.mod_lt n (by decide)
    have hdm := Nat.div_add_mod n 10
    unfold Nat.toDigits
    simp only [Nat.toDigitsCore]
    by_cases h : n / 10 = 0
    · simp [h, decodeDigits, decodeDigitChar_digitChar hmod]
      omega
    · have hn : 0 < n := by
        rcases Nat.eq_zero_or_pos n with h0 | h0
        · subst h0; simp at h
        · exact h0
      have hdiv : n / 10 < n := Nat.div_lt_self hn (by decide)
      simp only [h, if_false]
      rw [toDigitsCore_shift,
        toDigitsCore_fuel (n / 10) n (n / 10 + 1) (by omega) (by omega)]
      rw [decodeDigits_append_one]
      have hrec : decodeDigits (Nat.toDigits 10 (n / 10)) = n / 10 := ih _ hdiv
      unfold Nat.toDigits at hrec
      rw [hrec, decodeDigitChar_digitChar hmod]
      omega

theorem string_eq_of_data {a b : String} (h : a.data = b.data) : a = b := by
  cases a; cases b; exact congrArg String.mk h

theorem natRepr_injective {m n : Nat} (h : Nat.repr m = Nat.repr n) :
    m = n := by
  have hd : Nat.toDigits 10 m = Nat.toDigits 10 n := by
    have hdat := congrArg String.data h
    simpa [Nat.repr, List.asString] using hdat
  have hm := decodeDigits_toDigits m
  rw [hd, decodeDigits_toDigits] at hm
  exact hm.symm

theorem newChatId_injective {t u : Nat} (h : newChatId t = newChatId u) :
    t = u := by
  apply natRepr_injective
  apply string_eq_of_data
  have hdat := congrArg String.data h
  have ht : (newChatId t).data = "chat-".data ++ (Nat.repr t).data := rfl
  have hu : (newChatId u).data = "chat-".data ++ (Nat.repr u).data := rfl
  rw [ht, hu] at hdat
  exact List.append_cancel_left hdat

/-! ### Association-list lemmas for the JS-object model -/

theorem lookupAssoc_setAssoc_self {α : Type} (l : List (String × α))
    (k : String) (v : α) : lookupAssoc (setAssoc l k v) k = some v := by
  induction l with
  | nil => simp [setAssoc, lookupAssoc]
  | cons p l ih =>
    by_cases hp : p.1 = k
    · simp [setAssoc, lookupAssoc, hp]
    · simp [setAssoc, lookupAssoc, hp, ih]

theorem lookupAssoc_setAssoc_ne {α : Type} (l : List (String × α))
    (k k' : String) (v : α) (hne : k' ≠ k) :
    lookupAssoc (setAssoc l k v) k' = lookupAssoc l k' := by
  induction l with
  | nil => simp [setAssoc, lookupAssoc, Ne.symm hne]
  | cons p l ih =>
    by_cases hp : p.1 = k
    · simp [setAssoc, lookupAssoc, hp, Ne.symm hne]
    · simp [setAssoc, lookupAssoc, hp, ih]

/-! ## Claim theorems -/

/-- C1: for every category in {text, image, voice, coding}, calling
`makeApiCall` when no credential is configured for that category fails
with the configuration-error message and performs zero network calls —
the failure short-circuits before any outbound fetch, for every network
oracle. -/
theorem dispatch_unconfigured_short_circuits
    (net : Network) (store : LocalStorage) (ty content : String)
    (_hty : ty = "text" ∨ ty = "image" ∨ ty = "voice" ∨ ty = "coding")
    (hkey : getApiKey store ty = "") :
    makeApiCall net store ty content = (.error (configErrMsg ty), 0) := by
  unfold makeApiCall
  simp [hkey]

theorem dispatch_unconfigured_short_circuits_witness :
    ("voice" = "text" ∨ "voice" = "image" ∨ "voice" = "voice"
      ∨ "voice" = "coding")
    ∧ getApiKey LocalStorage.empty "voice" = ""
    ∧ makeApiCall demoNet LocalStorage.empty "voice" "hello"
        = (.error (configErrMsg "voice"), 0) :=
  ⟨by decide, by decide,
   dispatch_unconfigured_short_circuits demoNet LocalStorage.empty
     "voice" "hello" (by decide) (by decide)⟩

/-- C2: `detectApiType` is a pure total function testing case-insensitive
substring membership against the four fixed keyword sets in the priority
order image, voice, coding, default text; the first matching set wins. In
particular every input containing an image keyword classifies as image
even when a coding keyword is also present (first conjunct, which has no
side condition about the other sets). -/
theorem classify_priority_order (m : String) :
    (hasKeyword imageKeywords m = true → detectApiType m = "image")
    ∧ (hasKeyword imageKeywords m = false →
        hasKeyword voiceKeywords m = true → detectApiType m = "voice")
    ∧ (hasKeyword imageKeywords m = false →
        hasKeyword voiceKeywords m = false →
        hasKeyword codingKeywords m = true → detectApiType m = "coding")
    ∧ (hasKeyword imageKeywords m = false →
        hasKeyword voiceKeywords m = false →
        hasKeyword codingKeywords m = false → detectApiType m = "text") := by
  refine ⟨?_, ?_, ?_, ?_⟩
  · intro h1; simp [detectApiType, h1]
  · intro h1 h2; simp [detectApiType, h1, h2]
  · intro h1 h2 h3; simp [detectApiType, h1, h2, h3]
  · intro h1 h2 h3; simp [detectApiType, h1, h2, h3]

theorem classify_priority_order_witness :
    (hasKeyword imageKeywords "draw a function" = true
      ∧ hasKeyword codingKeywords "draw a function" = true
      ∧ detectApiType "draw a function" = "image")
    ∧ detectApiType "play some audio" = "voice"
    ∧ detectApiType "debug this function" = "coding"
    ∧ detectApiType "hello there" = "text" :=
  ⟨⟨by decide, by decide,
    (classify_priority_order "draw a function").1 (by decide)⟩,
   (classify_priority_order "play some audio").2.1 (by decide) (by decide),
   (classify_priority_order "debug this function").2.2.1 (by decide)
     (by decide) (by decide),
   (classify_priority_order "hello there").2.2.2 (by decide) (by decide)
     (by decide)⟩

/-- C5: for the voice category with a configured credential, dispatch
always fails deterministically — for every network oracle and content —
with the transport-unsupported error and zero provider calls; the message
is non-empty and localized by the persisted language preference. -/
theorem dispatch_voice_transport_unsupported
    (net : Network) (store : LocalStorage) (content : String)
    (hkey : getApiKey store "voice" ≠ "") :
    makeApiCall net store "voice" content
      = (.error (voiceTransportMessage store), 0)
    ∧ voiceTransportMessage store ≠ ""
    ∧ (jsGetOr store.selectedLanguage "roman-urdu" = "roman-urdu" →
        voiceTransportMessage store = voiceMsgRomanUrdu)
    ∧ (jsGetOr store.selectedLanguage "roman-urdu" ≠ "roman-urdu" →
        voiceTransportMessage store = voiceMsgEnglish) := by
  refine ⟨?_, ?_, ?_, ?_⟩
  · unfold makeApiCall callVoiceApi
    simp [hkey]
  · unfold voiceTransportMessage
    by_cases h : jsGetOr store.selectedLanguage "roman-urdu" = "roman-urdu"
      <;> simp [h] <;> decide
  · intro h; simp [voiceTransportMessage, h]
  · intro h; simp [voiceTransportMessage, h]

theorem dispatch_voice_transport_unsupported_witness :
    getApiKey { LocalStorage.empty with voiceApiKey := some "k" } "voice" ≠ ""
    ∧ makeApiCall demoNet { LocalStorage.empty with voiceApiKey := some "k" }
        "voice" "say hi"
      = (.error (voiceTransportMessage
          { LocalStorage.empty with voiceApiKey := some "k" }), 0) :=
  ⟨by decide,
   (dispatch_voice_transport_unsupported demoNet
     { LocalStorage.empty with voiceApiKey := some "k" } "say hi"
     (by decide)).1⟩

/-- C6 counterexample: with no voice credential and the client-only
transport, `makeApiCall` fails with the configuration error (the key-not-
configured message), which is not the transport-unsupported message in
either language — so the caller does not observe the
transport-unsupported failure in this configuration, contrary to the
claim. -/
theorem dispatch_voice_unconfigured_counterexample :
    makeApiCall demoNet LocalStorage.empty "voice" "say hi"
      = (.error (configErrMsg "voice"), 0)
    ∧ configErrMsg "voice" ≠ voiceMsgRomanUrdu
    ∧ configErrMsg "voice" ≠ voiceMsgEnglish := by
  refine ⟨rfl, by decide, by decide⟩

/-- C6 amended: for the voice category with no credential configured and
the client-only transport, dispatch fails with the configuration error
carrying a non-empty message — the transport-unsupported error is only
observable once a voice credential is configured (see the C5 theorem). -/
theorem dispatch_voice_unconfigured_is_config_error
    (net : Network) (store : LocalStorage) (content : String)
    (hkey : getApiKey store "voice" = "") :
    makeApiCall net store "voice" content
      = (.error (configErrMsg "voice"), 0)
    ∧ configErrMsg "voice" ≠ ""
    ∧ configErrMsg "voice" ≠ voiceMsgRomanUrdu
    ∧ configErrMsg "voice" ≠ voiceMsgEnglish := by
  refine ⟨?_, by decide, by decide, by decide⟩
  unfold makeApiCall
  simp [hkey]

theorem dispatch_voice_unconfigured_is_config_error_witness :
    getApiKey LocalStorage.empty "voice" = ""
    ∧ makeApiCall demoNet LocalStorage.empty "voice" "hello"
        = (.error (configErrMsg "voice"), 0) :=
  ⟨by decide,
   (dispatch_voice_unconfigured_is_config_error demoNet LocalStorage.empty
     "hello" (by decide)).1⟩

/-- C4: appending an entry to the active chat (prepend to the rendered
view, then `saveCurrentChat`) followed by `loadChat` on the persisted
store round-trips: whatever the message view holds at reload time, the
reloaded history is exactly the saved one, with the appended entry as the
newest (head) entry; the reload itself raises nothing. -/
theorem appendMessage_loadChat_roundtrip
    (st : AppState) (e : Bubble) (cid : String) (msgs dom : List Bubble)
    (hcid : st.currentChatId = some cid) (hel : st.messagesEl = some msgs)
    (hreg : st.store.glintChatList ≠ .malformed) :
    (loadChat { saveCurrentChat (prependBubble st e) with
        messagesEl := some dom } cid).2 = none
    ∧ (loadChat { saveCurrentChat (prependBubble st e) with
        messagesEl := some dom } cid).1.messagesEl = some (e :: msgs) := by
  have hsave : saveCurrentChat (prependBubble st e)
      = { st with
          store := { st.store with
            messagesHtml := setAssoc st.store.messagesHtml cid (e :: msgs) }
          messagesEl := some (e :: msgs) } := by
    simp [prependBubble, hel, saveCurrentChat, hcid]
  rw [hsave]
  cases hgl : st.store.glintChatList with
  | malformed => exact absurd hgl hreg
  | absent =>
    constructor <;>
      simp [loadChat, parseOr, hgl, lookupAssoc_setAssoc_self]
  | wellFormed l =>
    constructor <;>
      simp [loadChat, parseOr, hgl, lookupAssoc_setAssoc_self]

theorem appendMessage_loadChat_roundtrip_witness :
    (loadChat { saveCurrentChat (prependBubble c4State (userBubble "hi"))
        with messagesEl := some [] } "chat-1").2 = none
    ∧ (loadChat { saveCurrentChat (prependBubble c4State (userBubble "hi"))
        with messagesEl := some [] } "chat-1").1.messagesEl
      = some [userBubble "hi"] :=
  appendMessage_loadChat_roundtrip c4State (userBubble "hi") "chat-1" [] []
    rfl rfl (by decide)

/-- C7 counterexample: with a malformed persisted chat registry,
`startNewChat` propagates the parse exception to its caller and leaves
the state untouched (it does not behave as if the registry were empty,
which would have created the chat), and `loadChat` propagates the parse
exception as well — so not every read of corrupt storage is caught. -/
theorem storage_corruption_counterexample :
    (startNewChat corruptState 7).2 = some .jsonParse
    ∧ (startNewChat corruptState 7).1 = corruptState
    ∧ (loadChat corruptState "chat-1").2 = some .jsonParse := by
  decide

/-- C7 amended: reads of the per-chat media index (`getChatMedia` and the
two media writers, which read it first) catch malformed JSON and degrade
to an empty list or a no-op returning null; the per-chat rendered history
is stored as an opaque string with no parse step; but `startNewChat` and
`loadChat` parse the chat registry with no catch, so a malformed registry
propagates a parse exception to their caller instead of being treated as
empty. -/
theorem storage_corruption_handling :
    (∀ st : AppState, st.store.glintMediaStorage = .malformed →
      getChatMedia st = [])
    ∧ (∀ (st : AppState) (now : Nat) (d f : String),
        st.store.glintMediaStorage = .malformed →
        savePhotoToStorage st now d f = (st, none))
    ∧ (∀ (st : AppState) (now : Nat) (d f : String),
        st.store.glintMediaStorage = .malformed →
        saveVoiceToStorage st now d f = (st, none))
    ∧ (∀ (st : AppState) (now : Nat),
        st.store.glintChatList = .malformed →
        startNewChat st now = (st, some .jsonParse))
    ∧ (∀ (st : AppState) (cid : String) (dom : List Bubble),
        st.messagesEl = some dom →
        st.store.glintChatList = .malformed →
        (loadChat st cid).2 = some .jsonParse) := by
  refine ⟨?_, ?_, ?_, ?_, ?_⟩
  · intro st h
    cases hcid : st.currentChatId <;> simp [getChatMedia, hcid, h, parseOr]
  · intro st now d f h
    cases hcid : st.currentChatId <;>
      simp [savePhotoToStorage, hcid, h, parseOr]
  · intro st now d f h
    cases hcid : st.currentChatId <;>
      simp [saveVoiceToStorage, hcid, h, parseOr]
  · intro st now h
    simp [startNewChat, h, parseOr]
  · intro st cid dom hel h
    simp [loadChat, hel, h, parseOr]

theorem storage_corruption_handling_witness :
    getChatMedia corruptState = []
    ∧ savePhotoToStorage corruptState 7 "data" "f.png"
        = (corruptState, none)
    ∧ saveVoiceToStorage corruptState 7 "data" "f.wav"
        = (corruptState, none)
    ∧ startNewChat corruptState 7 = (corruptState, some .jsonParse)
    ∧ (loadChat corruptState "chat-1").2 = some .jsonParse :=
  ⟨storage_corruption_handling.1 corruptState rfl,
   storage_corruption_handling.2.1 corruptState 7 "data" "f.png" rfl,
   storage_corruption_handling.2.2.1 corruptState 7 "data" "f.wav" rfl,
   storage_corruption_handling.2.2.2.1 corruptState 7 rfl,
   storage_corruption_handling.2.2.2.2 corruptState "chat-1" [] rfl rfl⟩

/-- C8 counterexample: when `addMessage` runs for a user message with no
active chat but the persisted chat registry is malformed, the recovery
call to `startNewChat` throws, the exception is swallowed by the
function-wide catch, the retry is never scheduled, and the state is
returned unchanged — the message is silently dropped, contrary to
"never silently dropped". -/
theorem submit_no_active_chat_drop_counterexample :
    (addMessageUser noChatCorruptState 7 "hi").2 = false
    ∧ (addMessageUser noChatCorruptState 7 "hi").1 = noChatCorruptState := by
  decide

/-- C8 amended: when `addMessage` runs for a user message with no active chat and
the message view present (and an uncorrupted registry, without which the
recovery itself throws and the outer catch drops the message), the code
first synthesizes a new chat through `startNewChat` and retries once: the
result accepts the message — the user bubble is in the view under the
loading bubble — the active chat is the newly generated one, and the
registry has the new chat at its head. The no-active-chat condition is
converted into recovery, not surfaced. -/
theorem submit_no_active_chat_recovers
    (st : AppState) (now : Nat) (text : String) (dom : List Bubble)
    (hel : st.messagesEl = some dom) (hcid : st.currentChatId = none)
    (hreg : st.store.glintChatList ≠ .malformed) :
    (addMessageUser st now text).2 = true
    ∧ (addMessageUser st now text).1.currentChatId = some (newChatId now)
    ∧ (∃ c l, (addMessageUser st now text).1.store.glintChatList
        = .wellFormed (c :: l) ∧ c.id = newChatId now)
    ∧ (∃ rest, (addMessageUser st now text).1.messagesEl
        = some (loadingBubble (detectApiType text)
            :: userBubble text :: rest)) := by
  cases hgl : st.store.glintChatList with
  | malformed => exact absurd hgl hreg
  | absent =>
    refine ⟨?_, ?_, ?_, ?_⟩ <;>
      simp [addMessageUser, addMessageUserAux, hel, hcid, startNewChat,
        parseOr, hgl, loadChat]
  | wellFormed l =>
    refine ⟨?_, ?_, ?_, ?_⟩ <;>
      simp [addMessageUser, addMessageUserAux, hel, hcid, startNewChat,
        parseOr, hgl, loadChat]

theorem submit_no_active_chat_recovers_witness :
    (addMessageUser initialAppState 5 "hello").2 = true
    ∧ (addMessageUser initialAppState 5 "hello").1.currentChatId
        = some (newChatId 5) :=
  by
  refine ⟨(submit_no_active_chat_recovers initialAppState 5 "hello" []
      ?_ ?_ ?_).1,
    (submit_no_active_chat_recovers initialAppState 5 "hello" []
      ?_ ?_ ?_).2.1⟩ <;> decide

theorem mediaOf_parse (st : AppState)
    (m : List (String × List MediaAsset)) (k : String)
    (h : parseOr st.store.glintMediaStorage [] = .ok m) :
    mediaOf st k = (lookupAssoc m k).getD [] := by
  cases hgl : st.store.glintMediaStorage <;> rw [hgl] at h <;>
    simp [parseOr] at h
  · subst h; simp [mediaOf, hgl, lookupAssoc]
  · subst h; simp [mediaOf, hgl]

/-- C10: a media write to the active chat (`savePhotoToStorage` or the
decoded body of `saveVoiceToStorage`) leaves the media lists of all other
chat ids unchanged and appends the new asset — carrying the generated id,
the active chat id and the media kind — at the end of the active chat's
existing list. -/
theorem media_write_frame_property :
    (∀ (st : AppState) (now : Nat) (d f cid : String)
      (m : List (String × List MediaAsset)),
      st.currentChatId = some cid →
      parseOr st.store.glintMediaStorage [] = .ok m →
      (savePhotoToStorage st now d f).2 = some ("photo-" ++ Nat.repr now)
      ∧ (∀ k, k ≠ cid →
          mediaOf (savePhotoToStorage st now d f).1 k = mediaOf st k)
      ∧ mediaOf (savePhotoToStorage st now d f).1 cid
        = mediaOf st cid
          ++ [{ id := "photo-" ++ Nat.repr now, chatId := cid, data := d
                fileName := f, mtype := "photo", timestamp := now
                duration := none }])
    ∧ (∀ (st : AppState) (now : Nat) (d f cid : String)
      (m : List (String × List MediaAsset)),
      st.currentChatId = some cid →
      parseOr st.store.glintMediaStorage [] = .ok m →
      (saveVoiceToStorage st now d f).2 = some ("voice-" ++ Nat.repr now)
      ∧ (∀ k, k ≠ cid →
          mediaOf (saveVoiceToStorage st now d f).1 k = mediaOf st k)
      ∧ mediaOf (saveVoiceToStorage st now d f).1 cid
        = mediaOf st cid
          ++ [{ id := "voice-" ++ Nat.repr now, chatId := cid, data := d
                fileName := f, mtype := "voice", timestamp := now
                duration := some 0 }]) := by
  constructor
  · intro st now d f cid m hcid hparse
    have hbase := mediaOf_parse st m
    simp only [savePhotoToStorage, hcid]
    rw [hparse]
    refine ⟨rfl, ?_, ?_⟩
    · intro k hk
      rw [hbase k hparse]
      simp [mediaOf, lookupAssoc_setAssoc_ne _ _ _ _ hk]
    · rw [hbase cid hparse]
      simp [mediaOf, lookupAssoc_setAssoc_self]
  · intro st now d f cid m hcid hparse
    have hbase := mediaOf_parse st m
    simp only [saveVoiceToStorage, hcid]
    rw [hparse]
    refine ⟨rfl, ?_, ?_⟩
    · intro k hk
      rw [hbase k hparse]
      simp [mediaOf, lookupAssoc_setAssoc_ne _ _ _ _ hk]
    · rw [hbase cid hparse]
      simp [mediaOf, lookupAssoc_setAssoc_self]

theorem media_write_frame_property_witness :
    (savePhotoToStorage c4State 9 "img" "p.png").2
      = some ("photo-" ++ Nat.repr 9)
    ∧ mediaOf (savePhotoToStorage c4State 9 "img" "p.png").1 "other"
      = mediaOf c4State "other"
    ∧ (saveVoiceToStorage c4State 9 "aud" "v.wav").2
      = some ("voice-" ++ Nat.repr 9) :=
  ⟨(media_write_frame_property.1 c4State 9 "img" "p.png" "chat-1" []
      rfl rfl).1,
   (media_write_frame_property.1 c4State 9 "img" "p.png" "chat-1" []
      rfl rfl).2.1 "other" (by decide),
   (media_write_frame_property.2 c4State 9 "aud" "v.wav" "chat-1" []
      rfl rfl).1⟩

/-- C9: for every type string outside the four categories, `getApiKey`
falls through to the default branch and returns the text credential, so
an unknown request type is treated as credentialed whenever the text
credential is configured (non-empty). -/
theorem getApiKey_unknown_type_falls_back
    (store : LocalStorage) (ty : String)
    (h1 : ty ≠ "text") (h2 : ty ≠ "image") (h3 : ty ≠ "voice")
    (h4 : ty ≠ "coding") :
    getApiKey store ty = getApiKey store "text"
    ∧ (getApiKey store "text" ≠ "" → getApiKey store ty ≠ "") := by
  have he : getApiKey store ty = store.textApiKey.getD "" := by
    unfold getApiKey
    simp [h1, h2, h3, h4]
  have ht : getApiKey store "text" = store.textApiKey.getD "" := by
    unfold getApiKey
    simp
  exact ⟨he.trans ht.symm, fun hne => by rw [he, ← ht]; exact hne⟩

/-- C3 counterexample: two `startNewChat` calls in the same millisecond
produce the same id `chat-5`; the second call returns an id already
present in the registry snapshot taken before it, and the registry ends
with duplicate ids — the no-duplicate invariant is violated. -/
theorem createChat_same_millisecond_counterexample :
    newChatId 5 ∈ registryIds c3StateOne
    ∧ registryIds c3StateTwo = [newChatId 5, newChatId 5]
    ∧ ¬ (registryIds c3StateTwo).Nodup := by
  decide

/-- C3 amended: `startNewChat` always places the new chat at the head of
the registry, and when the generated id `chat-<now>` is not already
present in the registry snapshot, the returned id is fresh and the
no-duplicate invariant is preserved; two calls in quick succession
produce distinct ids exactly when their millisecond timestamps differ
(calls within the same millisecond collide, as the counterexample
shows). -/
theorem createChat_fresh_id_spec :
    (∀ (st : AppState) (now : Nat) (l : List ChatMeta),
      parseOr st.store.glintChatList [] = .ok l →
      newChatId now ∉ l.map ChatMeta.id →
      (startNewChat st now).2 = none
      ∧ (∃ c : ChatMeta, c.id = newChatId now ∧ c.date = now
          ∧ (startNewChat st now).1.store.glintChatList
              = .wellFormed (c :: l))
      ∧ ((l.map ChatMeta.id).Nodup →
          (registryIds (startNewChat st now).1).Nodup)
      ∧ (startNewChat st now).1.currentChatId = some (newChatId now))
    ∧ (∀ t u : Nat, t ≠ u → newChatId t ≠ newChatId u) := by
  constructor
  · intro st now l hparse hfresh
    cases hel : st.messagesEl with
    | none =>
      simp only [startNewChat]
      rw [hparse]
      refine ⟨?_,
        ⟨{ id := newChatId now, name := chatDisplayName now, date := now },
          rfl, rfl, ?_⟩, ?_, ?_⟩
      · simp [loadChat, hel, parseOr]
      · simp [loadChat, hel, parseOr]
      · intro hnodup
        simp [loadChat, hel, parseOr, registryIds]
        exact ⟨by simpa using hfresh, hnodup⟩
      · simp [loadChat, hel, parseOr]
    | some dom =>
      simp only [startNewChat]
      rw [hparse]
      refine ⟨?_,
        ⟨{ id := newChatId now, name := chatDisplayName now, date := now },
          rfl, rfl, ?_⟩, ?_, ?_⟩
      · simp [loadChat, hel, parseOr]
      · simp [loadChat, hel, parseOr]
      · intro hnodup
        simp [loadChat, hel, parseOr, registryIds]
        exact ⟨by simpa using hfresh, hnodup⟩
      · simp [loadChat, hel, parseOr]
  · intro t u hne he
    exact hne (newChatId_injective he)

theorem createChat_fresh_id_spec_witness :
    ((startNewChat initialAppState 5).2 = none
      ∧ (startNewChat initialAppState 5).1.currentChatId
          = some (newChatId 5))
    ∧ newChatId 1 ≠ newChatId 2 :=
  ⟨⟨(createChat_fresh_id_spec.1 initialAppState 5 [] rfl (by decide)).1,
    (createChat_fresh_id_spec.1 initialAppState 5 [] rfl
      (by decide)).2.2.2⟩,
   createChat_fresh_id_spec.2 1 2 (by decide)⟩

theorem getApiKey_unknown_type_falls_back_witness :
    getApiKey { LocalStorage.empty with textApiKey := some "tk" } "banana"
      = getApiKey { LocalStorage.empty with textApiKey := some "tk" } "text"
    ∧ getApiKey { LocalStorage.empty with textApiKey := some "tk" } "banana"
      ≠ "" :=
  ⟨(getApiKey_unknown_type_falls_back
      { LocalStorage.empty with textApiKey := some "tk" } "banana"
      (by decide) (by decide) (by decide) (by decide)).1,
   (getApiKey_unknown_type_falls_back
      { LocalStorage.empty with textApiKey := some "tk" } "banana"
      (by decide) (by decide) (by decide) (by decide)).2 (by decide)⟩
